import Mathlib

/-!
# Verification of the Lisbon road-accidents dashboard pipeline

Shallow embedding of `app.py`: the loader/enricher derivations
(`categorize_severity`, `categorize_time_period`, `total_casualties`),
the sidebar filter mask and view builder (`filtered_df`), the aggregation
helpers feeding the charts (`hourly_data` via `groupby('hour').size()`,
`day_data` via `value_counts().reindex(day_order)`), the key-metric
computations, the map/charts rendering branches, and CSV export.

Rows are lists of `Record`; pandas boolean Series over a frame are lists
of `Bool` of the same length, combined elementwise with `&` (`zipWith and`)
and applied with `df[mask]` (`selectRows`). Dates are modelled as `Int`
(pandas dates are totally ordered; only `≤` comparisons occur).
-/

namespace LisbonDashboard

/-- One row of the source dataset, raw columns only
(id, date, hour, latitude, longitude, parish, road_type, accident_type,
weather, num_vehicles, injuries_light, injuries_serious, fatalities_30d,
day_of_week).  Coordinates are scaled integers: the pipeline never does
arithmetic on them other than carrying them to the map markers. -/
structure Record where
  id : Nat
  date : Int
  hour : Nat
  latitude : Int
  longitude : Int
  parish : String
  road_type : String
  accident_type : String
  weather : String
  num_vehicles : Nat
  injuries_light : Nat
  injuries_serious : Nat
  fatalities_30d : Nat
  day_of_week : String
  deriving Repr, DecidableEq

/-- `categorize_severity` from `app.py` lines 42-50: priority cascade
fatalities_30d > 0 → Fatal, elif injuries_serious > 0 → Serious,
elif injuries_light > 0 → Light, else Property Damage Only. -/
def categorize_severity (r : Record) : String :=
  if r.fatalities_30d > 0 then "Fatal"
  else if r.injuries_serious > 0 then "Serious"
  else if r.injuries_light > 0 then "Light"
  else "Property Damage Only"

/-- `total_casualties` column from `app.py` line 53:
injuries_light + injuries_serious + fatalities_30d. -/
def total_casualties (r : Record) : Nat :=
  r.injuries_light + r.injuries_serious + r.fatalities_30d

/-- `categorize_time_period` from `app.py` lines 56-64:
6 <= hour < 12 → Morning, 12 <= hour < 18 → Afternoon,
18 <= hour < 22 → Evening, else Night. -/
def categorize_time_period (hour : Nat) : String :=
  if 6 ≤ hour ∧ hour < 12 then "Morning"
  else if 12 ≤ hour ∧ hour < 18 then "Afternoon"
  else if 18 ≤ hour ∧ hour < 22 then "Evening"
  else "Night"

/-- The sidebar filter selections (`app.py` lines 81-126): the value of the
`date_input` widget (a tuple of one or two dates while the user is picking,
modelled as a list) and the five multiselect accepted-value lists. -/
structure FilterConfig where
  date_range : List Int
  severity_options : List String
  weather_options : List String
  road_type_options : List String
  parish_options : List String
  time_period_options : List String

/-- A pandas boolean Series over the frame: one Bool per row. -/
def boolSeries (df : List Record) (p : Record → Bool) : List Bool :=
  df.map p

/-- Elementwise `&` of two boolean Series. -/
def andSeries (a b : List Bool) : List Bool :=
  List.zipWith and a b

/-- The combined boolean mask of `app.py` lines 130-138: the seven
per-dimension Series combined left-associatively with `&`.  The derived
columns `severity` and `time_period` are the enricher functions applied to
the raw fields; `.isin(options)` is list membership. -/
def mask (df : List Record) (lo hi : Int) (cfg : FilterConfig) : List Bool :=
  andSeries (andSeries (andSeries (andSeries (andSeries (andSeries
    (boolSeries df (fun r => decide (lo ≤ r.date)))
    (boolSeries df (fun r => decide (r.date ≤ hi))))
    (boolSeries df (fun r => decide (categorize_severity r ∈ cfg.severity_options))))
    (boolSeries df (fun r => decide (r.weather ∈ cfg.weather_options))))
    (boolSeries df (fun r => decide (r.road_type ∈ cfg.road_type_options))))
    (boolSeries df (fun r => decide (r.parish ∈ cfg.parish_options))))
    (boolSeries df (fun r => decide (categorize_time_period r.hour ∈ cfg.time_period_options)))

/-- Row selection `df[mask]`: keep the rows whose mask bit is true, in
source order. -/
def selectRows : List Record → List Bool → List Record
  | r :: rs, b :: bs => if b then r :: selectRows rs bs else selectRows rs bs
  | _, _ => []

/-- The view builder of `app.py` lines 129-141: if the date-range widget
holds exactly two endpoints, apply the mask; otherwise the filtered frame
is the full frame, all categorical selections ignored. -/
def filtered_df (df : List Record) (cfg : FilterConfig) : List Record :=
  match cfg.date_range with
  | [lo, hi] => selectRows df (mask df lo hi cfg)
  | _ => df

/-- The per-row predicate the seven-way mask conjunction collapses to
(proved below in `filtered_df_eq_filter`); `&&` associates to the left,
matching the `&` chain in the source. -/
def rowPred (lo hi : Int) (cfg : FilterConfig) (r : Record) : Bool :=
  decide (lo ≤ r.date) && decide (r.date ≤ hi) &&
  decide (categorize_severity r ∈ cfg.severity_options) &&
  decide (r.weather ∈ cfg.weather_options) &&
  decide (r.road_type ∈ cfg.road_type_options) &&
  decide (r.parish ∈ cfg.parish_options) &&
  decide (categorize_time_period r.hour ∈ cfg.time_period_options)

theorem andSeries_boolSeries (df : List Record) (p q : Record → Bool) :
    andSeries (boolSeries df p) (boolSeries df q)
      = boolSeries df (fun r => p r && q r) := by
  induction df with
  | nil => rfl
  | cons r rs ih =>
      simp only [boolSeries, List.map_cons, andSeries, List.zipWith_cons_cons]
      simp [boolSeries, andSeries] at ih
      simp [ih]

theorem selectRows_boolSeries (df : List Record) (p : Record → Bool) :
    selectRows df (boolSeries df p) = df.filter p := by
  induction df with
  | nil => rfl
  | cons r rs ih =>
      simp only [boolSeries, List.map_cons, selectRows, List.filter_cons]
      by_cases h : p r = true
      · simpa [h, boolSeries] using congrArg (r :: ·) ih
      · simp only [Bool.not_eq_true] at h
        simpa [h, boolSeries] using ih

theorem mask_eq_boolSeries (df : List Record) (lo hi : Int) (cfg : FilterConfig) :
    mask df lo hi cfg = boolSeries df (rowPred lo hi cfg) := by
  unfold mask rowPred
  rw [andSeries_boolSeries, andSeries_boolSeries, andSeries_boolSeries,
    andSeries_boolSeries, andSeries_boolSeries, andSeries_boolSeries]

/-- The series-level mask pipeline is row filtering by the conjunction
predicate. -/
theorem filtered_df_eq_filter (df : List Record) (cfg : FilterConfig)
    (lo hi : Int) (h : cfg.date_range = [lo, hi]) :
    filtered_df df cfg = df.filter (rowPred lo hi cfg) := by
  unfold filtered_df
  rw [h]
  show selectRows df (mask df lo hi cfg) = _
  rw [mask_eq_boolSeries, selectRows_boolSeries]

/-! ## Aggregation helpers (charts section of `app.py`) -/

/-- Deduplicate a list (decidable equality), keeping one copy of each
value.  Pandas orders groupby keys ascending and value_counts entries by
descending count; where the order matters below it is restored explicitly
(`sortNat` for groupby keys), and where it does not (the `reindex` lookups)
only the key-to-count mapping of this list is used. -/
def dedupKeep {α : Type} [DecidableEq α] : List α → List α
  | [] => []
  | x :: xs => if x ∈ xs then dedupKeep xs else x :: dedupKeep xs

/-- Insert into a sorted list of naturals, preserving ascending order. -/
def insertSorted (h : Nat) : List Nat → List Nat
  | [] => [h]
  | x :: xs => if h ≤ x then h :: x :: xs else x :: insertSorted h xs

/-- Ascending insertion sort on naturals (the ascending key order of a
pandas groupby). -/
def sortNat (xs : List Nat) : List Nat :=
  xs.foldr insertSorted []

/-- Number of rows of the view whose `hour` equals `h` (the size of
groupby group `h`). -/
def countHour (v : List Record) (h : Nat) : Nat :=
  (v.filter (fun r => r.hour == h)).length

/-- `hourly_data` from `app.py` line 363:
`filtered_df.groupby('hour').size()` — one (hour, group size) entry per
distinct hour value present in the view, keys ascending.  Hours absent
from the view produce no group. -/
def hourly_data (v : List Record) : List (Nat × Nat) :=
  (sortNat (dedupKeep (v.map (fun r => r.hour)))).map (fun h => (h, countHour v h))

/-- Number of occurrences of string `d` in `xs`. -/
def countStr (xs : List String) (d : String) : Nat :=
  (xs.filter (fun y => y == d)).length

/-- `Series.value_counts()`: one (value, count) entry per distinct value
occurring in the series.  Pandas sorts these by descending count; the
only consumer below (`reindex`) looks entries up by key, so the entry
order is irrelevant and not modelled. -/
def value_counts (xs : List String) : List (String × Nat) :=
  (dedupKeep xs).map (fun x => (x, countStr xs x))

/-- Key lookup in a (value, count) association list. -/
def lookupCount : List (String × Nat) → String → Option Nat
  | [], _ => none
  | (k, c) :: rest, d => if d == k then some c else lookupCount rest d

/-- `Series.reindex(keys)`: one entry per requested key, in the requested
order; a key with no entry in the source gets a missing (NaN) count,
modelled as `none`. -/
def reindex (assoc : List (String × Nat)) (keys : List String) : List (String × Option Nat) :=
  keys.map (fun k => (k, lookupCount assoc k))

/-- `day_order` from `app.py` line 407. -/
def day_order : List String :=
  ["Monday", "Tuesday", "Wednesday", "Thursday", "Friday", "Saturday", "Sunday"]

/-- `day_data` from `app.py` line 408:
`filtered_df['day_of_week'].value_counts().reindex(day_order)`. -/
def day_data (v : List Record) : List (String × Option Nat) :=
  reindex (value_counts (v.map (fun r => r.day_of_week))) day_order

/-! ## Key metrics (`app.py` lines 156-187) -/

/-- "Total Accidents": `len(filtered_df)`. -/
def metric_total_accidents (v : List Record) : Nat :=
  v.length

/-- "Total Casualties": `filtered_df['total_casualties'].sum()`. -/
def metric_total_casualties (v : List Record) : Nat :=
  (v.map total_casualties).sum

/-- "Fatal Accidents": `len(filtered_df[filtered_df['severity'] == 'Fatal'])`. -/
def metric_fatal_accidents (v : List Record) : Nat :=
  (v.filter (fun r => categorize_severity r == "Fatal")).length

/-- "Serious Injuries": `filtered_df['injuries_serious'].sum()`. -/
def metric_serious_injuries (v : List Record) : Nat :=
  (v.map (fun r => r.injuries_serious)).sum

/-- "Parishes Affected": `filtered_df['parish'].nunique()`. -/
def metric_parishes_affected (v : List Record) : Nat :=
  (dedupKeep (v.map (fun r => r.parish))).length

/-! ## Map, charts, table and export panels -/

/-- What a presentation section of the page emits for a given view. -/
inductive Panel where
  | mapMarkers (markers : List (Int × Int × String))
  | noDataNotice
  | chartsOutput (hourly : List (Nat × Nat)) (days : List (String × Option Nat))
  | nothingRendered
  deriving Repr, DecidableEq

/-- `severity_colors.get(severity, 'blue')` from `app.py` lines 218-227. -/
def severity_colors (s : String) : String :=
  if s == "Property Damage Only" then "green"
  else if s == "Light" then "orange"
  else if s == "Serious" then "red"
  else if s == "Fatal" then "darkred"
  else "blue"

/-- Map section, `app.py` lines 196-271: a marker per row when the view is
non-empty, otherwise `st.warning("No data available for the selected
filters.")`. -/
def renderMapSection (v : List Record) : Panel :=
  if 0 < v.length then
    Panel.mapMarkers (v.map (fun r => (r.latitude, r.longitude, severity_colors (categorize_severity r))))
  else Panel.noDataNotice

/-- Charts section, `app.py` line 280: `if len(filtered_df) > 0:` renders
the charts; the conditional has no else branch, so an empty view renders
nothing at all in this section. -/
def renderChartsSection (v : List Record) : Panel :=
  if 0 < v.length then Panel.chartsOutput (hourly_data v) (day_data v)
  else Panel.nothingRendered

/-- Header row of `to_csv`: the raw columns in declaration order followed
by the derived columns modelled here (the calendar columns `month` and
`month_name`, which no observed property touches, are outside the
embedding). -/
def csvHeader : List String :=
  ["id", "date", "hour", "latitude", "longitude", "parish", "road_type",
   "accident_type", "weather", "num_vehicles", "injuries_light",
   "injuries_serious", "fatalities_30d", "day_of_week", "severity",
   "total_casualties", "time_period"]

/-- One serialized row of `to_csv(index=False)`. -/
def recordCsvRow (r : Record) : List String :=
  [toString r.id, toString r.date, toString r.hour, toString r.latitude,
   toString r.longitude, r.parish, r.road_type, r.accident_type, r.weather,
   toString r.num_vehicles, toString r.injuries_light,
   toString r.injuries_serious, toString r.fatalities_30d, r.day_of_week,
   categorize_severity r, toString (total_casualties r),
   categorize_time_period r.hour]

/-- `filtered_df.to_csv(index=False)` (`app.py` line 476), as rows of
cells: the header row then one row per record. -/
def to_csv (v : List Record) : List (List String) :=
  csvHeader :: v.map recordCsvRow

/-! ## Concrete sample data for witnesses and counterexamples -/

/-- A sample row builder: fixed identity and location, varying hour,
day of week and casualty counts. -/
def mkRecord (hour : Nat) (day : String) (il is f : Nat) : Record :=
  { id := 1, date := 10, hour := hour, latitude := 38, longitude := -9,
    parish := "Alvalade", road_type := "Urban", accident_type := "Collision",
    weather := "Clear", num_vehicles := 2, injuries_light := il,
    injuries_serious := is, fatalities_30d := f, day_of_week := day }

/-- A filter configuration accepting the sample record's values, with a
date range containing its date. -/
def sampleCfg : FilterConfig :=
  { date_range := [0, 20], severity_options := ["Light"],
    weather_options := ["Clear"], road_type_options := ["Urban"],
    parish_options := ["Alvalade"],
    time_period_options := ["Morning", "Afternoon", "Evening", "Night"] }

/-! ## Shared helper lemmas -/

theorem length_filter_mono {α : Type} (l : List α) (p q : α → Bool)
    (h : ∀ a, p a = true → q a = true) :
    (l.filter p).length ≤ (l.filter q).length := by
  induction l with
  | nil => simp
  | cons a t ih =>
      simp only [List.filter_cons]
      by_cases hp : p a = true
      · rw [if_pos hp, if_pos (h a hp)]
        simpa using ih
      · rw [if_neg hp]
        by_cases hq : q a = true
        · rw [if_pos hq]
          exact le_trans ih (by simp)
        · rw [if_neg hq]
          exact ih

theorem filtered_df_of_short_range (df : List Record) (cfg : FilterConfig)
    (h : cfg.date_range.length ≠ 2) : filtered_df df cfg = df := by
  rcases hdr : cfg.date_range with _ | ⟨a, _ | ⟨b, _ | ⟨c, t⟩⟩⟩
  · simp [filtered_df, hdr]
  · simp [filtered_df, hdr]
  · rw [hdr] at h
    simp at h
  · simp [filtered_df, hdr]

/-- A sample Light-severity record: hour 10 (Morning), a Monday, one light
injury, no serious injuries, no fatalities. -/
def sampleLight : Record := mkRecord 10 "Monday" 1 0 0

/-! ## Claims -/

/-- C1: every record's derived severity is one of Fatal, Serious, Light,
Property Damage Only, chosen by priority on the raw counts
(fatalities first, then serious, then light, else property damage only);
in particular a record with fatalities_30d = 1 and injuries_serious = 2
classifies as Fatal. -/
theorem severity_classification (r : Record) :
    (categorize_severity r = "Fatal" ∨ categorize_severity r = "Serious" ∨
     categorize_severity r = "Light" ∨ categorize_severity r = "Property Damage Only")
    ∧ (0 < r.fatalities_30d → categorize_severity r = "Fatal")
    ∧ (r.fatalities_30d = 0 → 0 < r.injuries_serious →
        categorize_severity r = "Serious")
    ∧ (r.fatalities_30d = 0 → r.injuries_serious = 0 → 0 < r.injuries_light →
        categorize_severity r = "Light")
    ∧ (r.fatalities_30d = 0 → r.injuries_serious = 0 → r.injuries_light = 0 →
        categorize_severity r = "Property Damage Only")
    ∧ categorize_severity (mkRecord 10 "Monday" 0 2 1) = "Fatal" := by
  refine ⟨?_, ?_, ?_, ?_, ?_, rfl⟩
  · unfold categorize_severity
    split_ifs <;> simp
  · intro h
    simp [categorize_severity, h]
  · intro h0 h1
    simp [categorize_severity, h0, h1]
  · intro h0 h1 h2
    simp [categorize_severity, h0, h1, h2]
  · intro h0 h1 h2
    simp [categorize_severity, h0, h1, h2]

theorem severity_classification_witness :
    categorize_severity (mkRecord 10 "Monday" 0 2 1) = "Fatal" :=
  (severity_classification (mkRecord 10 "Monday" 0 2 1)).2.1 (by decide)

/-- C2: for every hour 0-23 the derived time period is total and follows
the half-open buckets [6,12) → Morning, [12,18) → Afternoon,
[18,22) → Evening, everything else (0-5 and 22-23) → Night, with exactly
one bucket per hour. -/
theorem time_period_buckets :
    ∀ h : Nat, h < 24 →
      ((6 ≤ h ∧ h < 12) → categorize_time_period h = "Morning")
      ∧ ((12 ≤ h ∧ h < 18) → categorize_time_period h = "Afternoon")
      ∧ ((18 ≤ h ∧ h < 22) → categorize_time_period h = "Evening")
      ∧ ((h < 6 ∨ 22 ≤ h) → categorize_time_period h = "Night")
      ∧ (categorize_time_period h = "Morning" ∨
         categorize_time_period h = "Afternoon" ∨
         categorize_time_period h = "Evening" ∨
         categorize_time_period h = "Night") := by
  decide

theorem time_period_buckets_witness :
    categorize_time_period 6 = "Morning" :=
  (time_period_buckets 6 (by decide)).1 (by decide)

/-- C3: with a two-endpoint date range, the filtered view contains exactly
the rows inside the inclusive date bounds whose value in each categorical
dimension belongs to that dimension's accepted list (AND across
dimensions, OR within one), and the view is a sublist of the source, so
row order is preserved. -/
theorem filter_membership_and_order (df : List Record) (cfg : FilterConfig)
    (lo hi : Int) (hdr : cfg.date_range = [lo, hi]) :
    (∀ r : Record, r ∈ filtered_df df cfg ↔
      r ∈ df ∧ lo ≤ r.date ∧ r.date ≤ hi ∧
      categorize_severity r ∈ cfg.severity_options ∧
      r.weather ∈ cfg.weather_options ∧
      r.road_type ∈ cfg.road_type_options ∧
      r.parish ∈ cfg.parish_options ∧
      categorize_time_period r.hour ∈ cfg.time_period_options)
    ∧ (filtered_df df cfg).Sublist df := by
  rw [filtered_df_eq_filter df cfg lo hi hdr]
  constructor
  · intro r
    simp only [List.mem_filter, rowPred, Bool.and_eq_true, decide_eq_true_eq]
    tauto
  · exact List.filter_sublist df

theorem filter_membership_and_order_witness :
    sampleLight ∈ filtered_df [sampleLight] sampleCfg ∧
    (filtered_df [sampleLight] sampleCfg).Sublist [sampleLight] :=
  ⟨((filter_membership_and_order [sampleLight] sampleCfg 0 20 rfl).1
      sampleLight).mpr (by decide),
   (filter_membership_and_order [sampleLight] sampleCfg 0 20 rfl).2⟩

/-- C4: filtering is a pure function of the record set and the
configuration: re-filtering an already filtered view with the same
configuration changes nothing, and a configuration whose date range
covers every row and whose accepted lists contain every row's value in
each dimension returns the full set unchanged. -/
theorem filter_pure_and_identity (df : List Record) (cfg : FilterConfig) :
    filtered_df (filtered_df df cfg) cfg = filtered_df df cfg
    ∧ (∀ lo hi : Int, cfg.date_range = [lo, hi] →
        (∀ r ∈ df, lo ≤ r.date ∧ r.date ≤ hi ∧
          categorize_severity r ∈ cfg.severity_options ∧
          r.weather ∈ cfg.weather_options ∧
          r.road_type ∈ cfg.road_type_options ∧
          r.parish ∈ cfg.parish_options ∧
          categorize_time_period r.hour ∈ cfg.time_period_options) →
        filtered_df df cfg = df) := by
  constructor
  · by_cases h2 : cfg.date_range.length = 2
    · rcases hdr : cfg.date_range with _ | ⟨lo, _ | ⟨hi, _ | ⟨c, t⟩⟩⟩ <;>
        rw [hdr] at h2 <;> simp at h2
      rw [filtered_df_eq_filter df cfg lo hi hdr,
        filtered_df_eq_filter _ cfg lo hi hdr]
      exact List.filter_eq_self.mpr fun a ha => (List.mem_filter.mp ha).2
    · rw [filtered_df_of_short_range df cfg h2]
      exact filtered_df_of_short_range df cfg h2
  · intro lo hi hdr hall
    rw [filtered_df_eq_filter df cfg lo hi hdr]
    apply List.filter_eq_self.mpr
    intro r hr
    obtain ⟨h1, h2, h3, h4, h5, h6, h7⟩ := hall r hr
    simp only [rowPred, Bool.and_eq_true, decide_eq_true_eq]
    exact ⟨⟨⟨⟨⟨⟨h1, h2⟩, h3⟩, h4⟩, h5⟩, h6⟩, h7⟩

theorem filter_pure_and_identity_witness :
    filtered_df [sampleLight] sampleCfg = [sampleLight] :=
  (filter_pure_and_identity [sampleLight] sampleCfg).2 0 20 rfl (by decide)

/-- C7: with a two-endpoint date range, if any dimension's accepted list
is empty then the view builder still evaluates (it is total) and the
AND-composed mask rejects every row, so the filtered view is empty. -/
theorem empty_dimension_empty_view (df : List Record) (cfg : FilterConfig)
    (lo hi : Int) (hdr : cfg.date_range = [lo, hi])
    (hempty : cfg.severity_options = [] ∨ cfg.weather_options = [] ∨
      cfg.road_type_options = [] ∨ cfg.parish_options = [] ∨
      cfg.time_period_options = []) :
    filtered_df df cfg = [] := by
  rw [filtered_df_eq_filter df cfg lo hi hdr]
  apply List.filter_eq_nil_iff.mpr
  intro r hr
  rcases hempty with h | h | h | h | h <;> simp [rowPred, h]

theorem empty_dimension_empty_view_witness :
    filtered_df [sampleLight]
      { sampleCfg with severity_options := [] } = [] :=
  empty_dimension_empty_view [sampleLight]
    { sampleCfg with severity_options := [] } 0 20 rfl (Or.inl rfl)

/-- C8: filtering is monotone in the date range: narrowing the inclusive
date bounds while keeping the same accepted lists never increases the
number of rows in the filtered view. -/
theorem date_range_monotone (df : List Record)
    (lo hi lo' hi' : Int) (sevs weas roads pars tps : List String)
    (hlo : lo ≤ lo') (hhi : hi' ≤ hi) :
    (filtered_df df ⟨[lo', hi'], sevs, weas, roads, pars, tps⟩).length ≤
    (filtered_df df ⟨[lo, hi], sevs, weas, roads, pars, tps⟩).length := by
  rw [filtered_df_eq_filter _ _ lo' hi' rfl, filtered_df_eq_filter _ _ lo hi rfl]
  apply length_filter_mono
  intro r hr
  simp only [rowPred, Bool.and_eq_true, decide_eq_true_eq] at hr ⊢
  obtain ⟨⟨⟨⟨⟨⟨h1, h2⟩, h3⟩, h4⟩, h5⟩, h6⟩, h7⟩ := hr
  exact ⟨⟨⟨⟨⟨⟨le_trans hlo h1, le_trans h2 hhi⟩, h3⟩, h4⟩, h5⟩, h6⟩, h7⟩

theorem date_range_monotone_witness :
    (filtered_df [sampleLight]
      ⟨[5, 15], ["Light"], ["Clear"], ["Urban"], ["Alvalade"], ["Morning"]⟩).length ≤
    (filtered_df [sampleLight]
      ⟨[0, 20], ["Light"], ["Clear"], ["Urban"], ["Alvalade"], ["Morning"]⟩).length :=
  date_range_monotone [sampleLight] 0 20 5 15
    ["Light"] ["Clear"] ["Urban"] ["Alvalade"] ["Morning"]
    (by decide) (by decide)

/-- C10: when the date-range selection holds any number of endpoints other
than two, no filtering is applied at all: the view equals the full record
set and every categorical selection is ignored. -/
theorem short_date_range_no_filtering (df : List Record) (cfg : FilterConfig)
    (h : cfg.date_range.length ≠ 2) :
    filtered_df df cfg = df :=
  filtered_df_of_short_range df cfg h

theorem short_date_range_no_filtering_witness :
    filtered_df [sampleLight] ⟨[3], [], [], [], [], []⟩ = [sampleLight] :=
  short_date_range_no_filtering [sampleLight] ⟨[3], [], [], [], [], []⟩
    (by decide)

/-! ## Helper lemmas for the aggregation claims -/

theorem mem_insertSorted (a x : Nat) (l : List Nat) :
    a ∈ insertSorted x l ↔ a = x ∨ a ∈ l := by
  induction l with
  | nil => simp [insertSorted]
  | cons y ys ih =>
      unfold insertSorted
      by_cases h : x ≤ y
      · simp [h]
      · simp only [if_neg h, List.mem_cons, ih]
        tauto

theorem mem_sortNat (a : Nat) (xs : List Nat) : a ∈ sortNat xs ↔ a ∈ xs := by
  induction xs with
  | nil => simp [sortNat]
  | cons x l ih =>
      show a ∈ insertSorted x (sortNat l) ↔ a ∈ x :: l
      rw [mem_insertSorted, ih]
      simp

theorem mem_dedupKeep {α : Type} [DecidableEq α] (a : α) (xs : List α) :
    a ∈ dedupKeep xs ↔ a ∈ xs := by
  induction xs with
  | nil => simp [dedupKeep]
  | cons x l ih =>
      unfold dedupKeep
      by_cases h : x ∈ l
      · rw [if_pos h, ih]
        constructor
        · exact fun ha => List.mem_cons_of_mem x ha
        · intro ha
          rcases List.mem_cons.mp ha with rfl | ha
          · exact h
          · exact ha
      · rw [if_neg h]
        simp [ih]

theorem countHour_pos_iff (v : List Record) (h : Nat) :
    0 < countHour v h ↔ h ∈ v.map (fun r => r.hour) := by
  unfold countHour
  rw [List.length_pos]
  constructor
  · intro hne
    obtain ⟨r, hr⟩ := List.exists_mem_of_ne_nil _ hne
    have := List.mem_filter.mp hr
    exact List.mem_map.mpr ⟨r, this.1, by simpa using this.2⟩
  · intro hmem
    obtain ⟨r, hr, hh⟩ := List.mem_map.mp hmem
    intro hnil
    have : r ∈ v.filter (fun r => r.hour == h) :=
      List.mem_filter.mpr ⟨hr, by simp [hh]⟩
    rw [hnil] at this
    exact absurd this (List.not_mem_nil r)

theorem lookupCount_map (f : String → Nat) (l : List String) (d : String) :
    lookupCount (l.map (fun x => (x, f x))) d
      = if d ∈ l then some (f d) else none := by
  induction l with
  | nil => rfl
  | cons x t ih =>
      simp only [List.map_cons, lookupCount]
      by_cases h : d = x
      · subst h
        simp
      · simp only [List.mem_cons, h, false_or]
        rw [if_neg (by simpa using h), ih]

theorem lookupCount_value_counts (xs : List String) (d : String) :
    lookupCount (value_counts xs) d
      = if countStr xs d = 0 then none else some (countStr xs d) := by
  unfold value_counts
  rw [lookupCount_map]
  by_cases h : d ∈ dedupKeep xs
  · rw [if_pos h]
    have hd : d ∈ xs := (mem_dedupKeep d xs).mp h
    have hne : countStr xs d ≠ 0 := by
      intro h0
      unfold countStr at h0
      rw [List.length_eq_zero] at h0
      have : d ∈ xs.filter (fun y => y == d) :=
        List.mem_filter.mpr ⟨hd, by simp⟩
      rw [h0] at this
      exact absurd this (List.not_mem_nil d)
    rw [if_neg hne]
  · rw [if_neg h]
    have hd : d ∉ xs := fun hx => h ((mem_dedupKeep d xs).mpr hx)
    have h0 : countStr xs d = 0 := by
      unfold countStr
      rw [List.length_eq_zero, List.filter_eq_nil_iff]
      intro a ha hbeq
      exact hd (by rwa [show a = d from by simpa using hbeq] at ha)
    rw [if_pos h0]

/-! ## Aggregation claims -/

/-- C5 counterexample: a one-row view with its single accident at hour 10
makes `groupby('hour').size()` produce a single entry, not 24 — hours with
no accidents get no row at all. -/
theorem hourly_data_single_row :
    hourly_data [sampleLight] = [(10, 1)] ∧
    (hourly_data [sampleLight]).length ≠ 24 := by
  decide

/-- C5 amended: the count-by-hour aggregation has one entry per distinct
hour value occurring in the filtered view, carrying that hour's (positive)
accident count; hours with zero accidents are omitted rather than listed
with a zero count. -/
theorem hourly_data_characterization (v : List Record) (h c : Nat) :
    (h, c) ∈ hourly_data v ↔ 0 < countHour v h ∧ c = countHour v h := by
  unfold hourly_data
  rw [List.mem_map]
  constructor
  · rintro ⟨a, ha, heq⟩
    rw [Prod.mk.injEq] at heq
    obtain ⟨rfl, rfl⟩ := heq
    have : a ∈ v.map (fun r => r.hour) :=
      (mem_dedupKeep a _).mp ((mem_sortNat a _).mp ha)
    exact ⟨(countHour_pos_iff v a).mpr this, rfl⟩
  · rintro ⟨hpos, rfl⟩
    refine ⟨h, ?_, rfl⟩
    exact (mem_sortNat h _).mpr ((mem_dedupKeep h _).mpr ((countHour_pos_iff v h).mp hpos))

/-- C6 counterexample: in a one-row view whose accident happened on a
Monday, the day-of-week aggregation's Tuesday entry carries a missing
(NaN) count — `reindex` fills absent days with NaN, not with zero. -/
theorem day_data_missing_day :
    ("Tuesday", (none : Option Nat)) ∈ day_data [sampleLight] ∧
    ("Tuesday", (some 0 : Option Nat)) ∉ day_data [sampleLight] := by
  decide

/-- C6 amended: the day-of-week aggregation always returns exactly 7
entries in the fixed order Monday through Sunday, where a day with
accidents carries its count and a day with no accidents carries a missing
(NaN) count rather than zero. -/
theorem day_data_characterization (v : List Record) :
    day_data v = day_order.map (fun d =>
      (d, if countStr (v.map (fun r => r.day_of_week)) d = 0 then none
          else some (countStr (v.map (fun r => r.day_of_week)) d)))
    ∧ (day_data v).length = 7
    ∧ (day_data v).map Prod.fst = day_order := by
  have hmain : day_data v = day_order.map (fun d =>
      (d, if countStr (v.map (fun r => r.day_of_week)) d = 0 then none
          else some (countStr (v.map (fun r => r.day_of_week)) d))) := by
    unfold day_data reindex
    apply List.map_congr_left
    intro d _
    rw [lookupCount_value_counts]
  refine ⟨hmain, ?_, ?_⟩
  · rw [hmain]
    simp [day_order]
  · rw [hmain]
    simp [day_order]

/-! ## Empty-view rendering claim -/

/-- C9 counterexample: when the filter combination yields zero rows, the
charts section renders nothing at all — its `if len(filtered_df) > 0:`
has no else branch — rather than the "no data" notice the claim promises
for charts as well as for the map. -/
theorem charts_skip_counterexample :
    renderChartsSection
        (filtered_df [sampleLight] { sampleCfg with severity_options := [] })
      = Panel.nothingRendered ∧
    Panel.nothingRendered ≠ Panel.noDataNotice := by
  decide

/-- C9 amended: on a zero-row filtered view the pipeline degrades without
failing: the map section renders the "no data" warning, the charts
section is skipped and renders nothing (no notice), all five key metrics
evaluate to zero, and the table/export operate on an empty but well-formed
collection (the CSV is exactly its header row). -/
theorem graceful_empty_view (df : List Record) (cfg : FilterConfig)
    (hempty : filtered_df df cfg = []) :
    renderMapSection (filtered_df df cfg) = Panel.noDataNotice ∧
    renderChartsSection (filtered_df df cfg) = Panel.nothingRendered ∧
    metric_total_accidents (filtered_df df cfg) = 0 ∧
    metric_total_casualties (filtered_df df cfg) = 0 ∧
    metric_fatal_accidents (filtered_df df cfg) = 0 ∧
    metric_serious_injuries (filtered_df df cfg) = 0 ∧
    metric_parishes_affected (filtered_df df cfg) = 0 ∧
    to_csv (filtered_df df cfg) = [csvHeader] := by
  rw [hempty]
  exact ⟨rfl, rfl, rfl, rfl, rfl, rfl, rfl, rfl⟩

theorem graceful_empty_view_witness :
    renderMapSection
        (filtered_df [sampleLight] { sampleCfg with weather_options := [] })
      = Panel.noDataNotice ∧
    renderChartsSection
        (filtered_df [sampleLight] { sampleCfg with weather_options := [] })
      = Panel.nothingRendered ∧
    metric_total_accidents
        (filtered_df [sampleLight] { sampleCfg with weather_options := [] }) = 0 ∧
    metric_total_casualties
        (filtered_df [sampleLight] { sampleCfg with weather_options := [] }) = 0 ∧
    metric_fatal_accidents
        (filtered_df [sampleLight] { sampleCfg with weather_options := [] }) = 0 ∧
    metric_serious_injuries
        (filtered_df [sampleLight] { sampleCfg with weather_options := [] }) = 0 ∧
    metric_parishes_affected
        (filtered_df [sampleLight] { sampleCfg with weather_options := [] }) = 0 ∧
    to_csv (filtered_df [sampleLight] { sampleCfg with weather_options := [] })
      = [csvHeader] :=
  graceful_empty_view [sampleLight]
    { sampleCfg with weather_options := [] } (by decide)

end LisbonDashboard
